import Mathlib

/-!
Verification of the payment-gated tool-invocation pipeline of the MCPay
repository (an MCP server exposing free and paid blockchain tools behind an
x402 micropayment gate).

The embedding follows the source:
  * the tool catalog `TOOLS` (src/config/tools.ts),
  * the x402 payment service `X402Service.executePayment` (the logging
    variant, which carries the per-attempt `paymentId` and the balance
    fields; the `src/services/X402Service.ts` variant has the same control
    flow),
  * the payment facade `PaymentService` (getBalance / processPayment /
    getToolPrice),
  * the request dispatcher of `src/index.ts` (the `CallToolRequestSchema`
    handler together with `handlePayment`, `handleX402Status`,
    `executeTool`, `getUserAddress` and `getErrorSuggestion`).

External collaborators (the ethers provider, the ERC-20 `balanceOf` view,
the facilitator's header generation / verification / settlement) are
modelled as an oracle environment `Env`: each external call's result for
the one request under consideration is a field of `Env`.  JavaScript
numbers that hold token amounts are modelled as `ℚ`; the `uint256`
balances returned by `balanceOf` are `ℕ`.  The balance string returned by
`ethers.formatUnits(_, 6)` and re-read by `parseFloat` is modelled by its
exact rational value `n / 1000000`.  Thrown `Error(message)` values at the
dispatcher level are modelled by the structured type `DispatchError`
whose `errMessage` is the exact message the source builds.

Every run of the pipeline additionally produces an ordered `List Event`
trace recording the externally visible side effects (balance queries,
payment attempt creation, facilitator calls, the produced payment outcome
and the invocation of a tool's execution handler), in the order the
source issues them.
-/

namespace MCPay

/-- Access tier of a tool (src/config/tools.ts: `tier: 'free' | 'premium' | 'ultra'`). -/
inductive Tier where
  | free
  | premium
  | ultra
deriving DecidableEq, Repr

/-- One entry of the tool catalog (src/config/tools.ts `ToolDefinition`).
`required` is the `required` list of the tool's JSON `inputSchema`. -/
structure ToolDefinition where
  id : String
  name : String
  tier : Tier
  priceInCRO : ℚ
  priceInUSDC : ℚ
  required : List String
deriving DecidableEq, Repr

/-- The static tool catalog `TOOLS` of src/config/tools.ts. -/
def TOOLS : List ToolDefinition :=
  [ { id := "get_cronos_balance", name := "Get Cronos Balance", tier := Tier.free,
      priceInCRO := 0, priceInUSDC := 0, required := ["address"] },
    { id := "get_gas_price", name := "Get Gas Price", tier := Tier.free,
      priceInCRO := 0, priceInUSDC := 0, required := [] },
    { id := "get_token_price", name := "Get Token Price", tier := Tier.free,
      priceInCRO := 0, priceInUSDC := 0, required := ["symbol"] },
    { id := "check_transaction_status", name := "Check Transaction Status", tier := Tier.free,
      priceInCRO := 0, priceInUSDC := 0, required := ["txHash"] },
    { id := "check_x402_status", name := "Check x402 Status", tier := Tier.free,
      priceInCRO := 0, priceInUSDC := 0, required := [] },
    { id := "analyze_wallet_portfolio", name := "Analyze Wallet Portfolio", tier := Tier.premium,
      priceInCRO := 1/2, priceInUSDC := 1/100, required := ["address"] },
    { id := "get_historical_price_data", name := "Get Historical Price Data", tier := Tier.premium,
      priceInCRO := 1/4, priceInUSDC := 1/200, required := ["symbol", "days"] },
    { id := "find_arbitrage_opportunities", name := "Find Arbitrage Opportunities", tier := Tier.premium,
      priceInCRO := 1, priceInUSDC := 1/50, required := [] },
    { id := "optimize_swap_route", name := "Optimize Swap Route", tier := Tier.premium,
      priceInCRO := 2/5, priceInUSDC := 1/125, required := ["tokenIn", "tokenOut", "amountIn"] },
    { id := "execute_token_swap", name := "Execute Token Swap", tier := Tier.ultra,
      priceInCRO := 5, priceInUSDC := 1/10, required := ["tokenIn", "tokenOut", "amountIn"] },
    { id := "auto_compound_rewards", name := "Auto Compound Rewards", tier := Tier.ultra,
      priceInCRO := 15/2, priceInUSDC := 3/20, required := ["protocol", "poolAddress"] } ]

/-- Catalog lookup, `TOOLS.find(t => t.id === name)` as used throughout the source. -/
def findTool (toolName : String) : Option ToolDefinition :=
  TOOLS.find? fun t => t.id == toolName

/-- Externally visible side effects of one request, in issue order. -/
inductive Event where
  /-- An x402 payment attempt was created with this attempt id
  (`const paymentId = toolId-Date.now()` in `X402Service.executePayment`).
  Every audit-log write of the payment path happens inside the attempt. -/
  | attemptCreated (paymentId : String)
  /-- A USDCe `balanceOf(account)` query was issued. -/
  | balanceQuery (account : String)
  /-- A native-CRO `provider.getBalance(account)` query was issued. -/
  | nativeBalanceQuery (account : String)
  /-- `facilitator.generatePaymentHeader` was invoked. -/
  | headerCall
  /-- `facilitator.verifyPayment` was invoked. -/
  | verifyCall
  /-- `facilitator.settlePayment` was invoked (the only on-chain mutation). -/
  | settleCall
  /-- An `X402PaymentResult` with the given `success` flag was produced. -/
  | outcome (success : Bool)
  /-- The execution handler of the tool was invoked (`executeTool` switch case entered). -/
  | executed (toolId : String)
deriving DecidableEq, Repr

instance instDecEqExcept {α β : Type} [DecidableEq α] [DecidableEq β] :
    DecidableEq (Except α β) := fun a b =>
  match a, b with
  | Except.error x, Except.error y =>
    if h : x = y then isTrue (by rw [h])
    else isFalse (fun hc => h (Except.error.inj hc))
  | Except.error _, Except.ok _ => isFalse (fun hc => Except.noConfusion hc)
  | Except.ok _, Except.error _ => isFalse (fun hc => Except.noConfusion hc)
  | Except.ok x, Except.ok y =>
    if h : x = y then isTrue (by rw [h])
    else isFalse (fun hc => h (Except.ok.inj hc))

/-- Response of `facilitator.verifyPayment`. -/
structure VerifyResponse where
  isValid : Bool
  invalidReason : Option String
deriving DecidableEq, Repr

/-- Response of `facilitator.settlePayment` (only the fields the source
control flow reads). -/
structure SettleResponse where
  txHash : Option String
  error : Option String
deriving DecidableEq, Repr

/-- Oracle environment for a single request: the configuration read from
the process environment plus the result each external call returns during
this request. -/
structure Env where
  /-- `process.env.PRIVATE_KEY || ''` captured by the `X402Service` constructor. -/
  privateKey : String
  /-- Address of the wallet derived from `privateKey` (`signer.getAddress()`). -/
  signerAddress : String
  /-- `process.env.PAYMENT_RECIPIENT_ADDRESS || ''` held by `PaymentService`. -/
  recipientAddress : String
  /-- `process.env.DEFAULT_USER_ADDRESS` (absent or set). -/
  defaultUserAddress : Option String
  /-- Result of the first USDCe `balanceOf(account)` read (`Except.error` = the call threw). -/
  balanceOf : String → Except String Nat
  /-- Result of the post-settlement USDCe `balanceOf(account)` read. -/
  balanceOfAfter : String → Except String Nat
  /-- Result of `provider.getBalance(account)` (native CRO, in wei). -/
  nativeBalance : String → Except String Nat
  /-- Result of `facilitator.generatePaymentHeader`. -/
  generateHeader : Except String String
  /-- Result of `facilitator.generatePaymentRequirements` (opaque). -/
  requirements : String
  /-- Result of `facilitator.verifyPayment`. -/
  verifyResult : Except String VerifyResponse
  /-- Result of `facilitator.settlePayment`. -/
  settleResult : Except String SettleResponse
  /-- Result of `facilitator.getSupported` as serialized by `handleX402Status` (opaque). -/
  capabilities : String
  /-- Outcome of the tool's execution handler: the serialized data payload,
  or the message of the exception the handler threw. -/
  handlerData : String → Except String String
  /-- `Date.now()` at the start of the payment attempt, in milliseconds. -/
  nowMs : Nat

/-- Decimal digit character: `Char.ofNat (48 + d % 10)` renders digit `d`. -/
def digitChar (d : Nat) : Char :=
  Char.ofNat (48 + d % 10)

/-- Digit characters of `n`, most significant first (fuel-based structural
recursion; `fuel ≥ n` suffices). -/
def natStrAux : Nat → Nat → List Char
  | 0, _ => []
  | fuel+1, n => if n = 0 then [] else natStrAux fuel (n / 10) ++ [digitChar (n % 10)]

/-- Decimal rendering of a natural number (the template-literal rendering
of the JavaScript number `Date.now()` in `paymentId`). -/
def natStr (n : Nat) : String :=
  if n = 0 then "0" else String.mk (natStrAux n n)

/-- Per-attempt payment id: `const paymentId = toolId-Date.now()`
(X402Service.executePayment, logging variant). -/
def paymentId (toolId : String) (nowMs : Nat) : String :=
  toolId ++ "-" ++ natStr nowMs

/-- CRO display price to USDCe base units:
`Math.floor(amountCRO * 1000000)` (6 decimals). -/
def usdceWei (amountCRO : ℚ) : ℤ :=
  Int.floor (amountCRO * 1000000)

/-- `ethers.formatUnits(n, 6)`: 6-decimal string of a USDCe base-unit
amount (zero-padded fractional part; the exact trailing-zero trimming of
the library is abstracted — no claim depends on it). -/
def formatUnits6 (n : Nat) : String :=
  let frac := natStr (n % 1000000)
  natStr (n / 1000000) ++ "." ++ String.mk (List.replicate (6 - frac.length) '0') ++ frac

/-- JavaScript `Number.prototype.toString` on an amount held as `ℚ`
(exact decimal formatting of doubles is abstracted; no claim depends on
the rendering). -/
def ratStr (q : ℚ) : String :=
  toString q

/-- `value || default` on an optional JavaScript number (`undefined` and
`0` are falsy). -/
def jsNumOr (o : Option ℚ) (d : ℚ) : ℚ :=
  match o with
  | none => d
  | some q => if q = 0 then d else q

/-- `value || default` on an optional JavaScript string (`undefined` and
`''` are falsy). -/
def jsStrOr (o : Option String) (d : String) : String :=
  match o with
  | none => d
  | some s => if s = "" then d else s

/-- Result record of `X402Service.executePayment` (logging variant). -/
structure X402PaymentResult where
  success : Bool
  txHash : Option String := none
  explorerUrl : Option String := none
  amount : String
  timestamp : Nat
  verified : Bool
  settled : Bool
  error : Option String := none
  balanceBefore : Option String := none
  balanceAfter : Option String := none
  amountSpent : Option String := none
deriving DecidableEq, Repr

/-- State established by the `X402Service` constructor: it stores
`process.env.PRIVATE_KEY || ''` and, when the key is missing, only logs
`PRIVATE_KEY not found in .env file` — construction always completes. -/
structure X402Init where
  privateKey : String
  warnedMissingKey : Bool
deriving DecidableEq, Repr

/-- `X402Service` constructor, key handling (lines 42-45 of
src/services/X402Service.ts): never throws, records whether the
missing-key warning was printed. -/
def X402Service.init (envPrivateKey : String) : X402Init :=
  { privateKey := envPrivateKey, warnedMissingKey := envPrivateKey = "" }

/-- `X402Service.getSigner`: throws `Private Key missing in .env` when the
stored key is empty, otherwise yields the wallet (represented by `Unit`;
its address is `Env.signerAddress`). -/
def getSigner (privateKey : String) : Except String Unit :=
  if privateKey = "" then Except.error "Private Key missing in .env"
  else Except.ok ()

/-- Body of the `try` block of `X402Service.executePayment` (logging
variant): balance read, sufficiency check, header generation,
verification, settlement, and the no-transaction-reference balance-delta
fallback.  Returns the result or the thrown message, together with the
event trace. -/
def executePaymentEx (env : Env) (amountCRO : ℚ) (toolId : String) :
    Except String X402PaymentResult × List Event :=
  let pid := paymentId toolId env.nowMs
  let ev0 := [Event.attemptCreated pid]
  match getSigner env.privateKey with
  | Except.error e => (Except.error e, ev0)
  | Except.ok _ =>
    let walletAddress := env.signerAddress
    let requiredWei : ℤ := usdceWei amountCRO
    let ev1 := ev0 ++ [Event.balanceQuery walletAddress]
    match env.balanceOf walletAddress with
    | Except.error e => (Except.error e, ev1)
    | Except.ok balanceBefore =>
      if (balanceBefore : ℤ) < requiredWei then
        (Except.error ("Insufficient USDCe. Have: " ++ formatUnits6 balanceBefore ++
          ", Need: " ++ formatUnits6 requiredWei.toNat), ev1)
      else
        let ev2 := ev1 ++ [Event.headerCall]
        match env.generateHeader with
        | Except.error e => (Except.error e, ev2)
        | Except.ok _ =>
          let ev3 := ev2 ++ [Event.verifyCall]
          match env.verifyResult with
          | Except.error e => (Except.error e, ev3)
          | Except.ok verify =>
            if verify.isValid = false then
              (Except.error ("Verification failed: " ++ verify.invalidReason.getD "Unknown"), ev3)
            else
              let ev4 := ev3 ++ [Event.settleCall]
              match env.settleResult with
              | Except.error e => (Except.error e, ev4)
              | Except.ok settle =>
                let ev5 := ev4 ++ [Event.balanceQuery walletAddress]
                match settle.txHash with
                | some tx =>
                  match env.balanceOfAfter walletAddress with
                  | Except.error e => (Except.error e, ev5)
                  | Except.ok balanceAfter =>
                    (Except.ok
                      { success := true, txHash := some tx,
                        explorerUrl := some ("https://explorer.cronos.org/testnet/tx/" ++ tx),
                        amount := formatUnits6 requiredWei.toNat,
                        timestamp := env.nowMs / 1000,
                        verified := true, settled := true,
                        balanceBefore := some (formatUnits6 balanceBefore),
                        balanceAfter := some (formatUnits6 balanceAfter),
                        amountSpent := some (formatUnits6 (balanceBefore - balanceAfter)) }, ev5)
                | none =>
                  match env.balanceOfAfter walletAddress with
                  | Except.error e => (Except.error e, ev5)
                  | Except.ok balanceAfter =>
                    if balanceAfter < balanceBefore then
                      (Except.ok
                        { success := true,
                          txHash := some "Check wallet history - payment completed",
                          amount := formatUnits6 requiredWei.toNat,
                          timestamp := env.nowMs / 1000,
                          verified := true, settled := true,
                          balanceBefore := some (formatUnits6 balanceBefore),
                          balanceAfter := some (formatUnits6 balanceAfter),
                          amountSpent := some (formatUnits6 (balanceBefore - balanceAfter)) }, ev5)
                    else
                      (Except.error (settle.error.getD "Settlement failed"), ev5)

/-- `X402Service.executePayment`: the `try` body wrapped by the `catch`
that converts any thrown message into a failure record with
`success = verified = settled = false` and the message in `error`. -/
def executePayment (env : Env) (amountCRO : ℚ) (toolId : String) :
    X402PaymentResult × List Event :=
  match executePaymentEx env amountCRO toolId with
  | (Except.ok r, tr) => (r, tr ++ [Event.outcome r.success])
  | (Except.error msg, tr) =>
    ({ success := false, amount := ratStr amountCRO, timestamp := env.nowMs / 1000,
       verified := false, settled := false, error := some msg }, tr ++ [Event.outcome false])

/-- `X402Service.executeToolPayment`: delegates to `executePayment` with
the tool's display price (the description string only enters log lines). -/
def executeToolPayment (env : Env) (toolId : String) (price : ℚ) :
    X402PaymentResult × List Event :=
  executePayment env price toolId

/-- `X402Service.getUSDCeBalance`: reads the signer wallet's USDCe
balance and formats it with 6 decimals; any failure (including the
missing-key `getSigner` throw) is caught and reported as `'0'`.  The
returned string is modelled by its rational value. -/
def getUSDCeBalance (env : Env) : ℚ × List Event :=
  match getSigner env.privateKey with
  | Except.error _ => (0, [])
  | Except.ok _ =>
    match env.balanceOf env.signerAddress with
    | Except.ok n => ((n : ℚ) / 1000000, [Event.balanceQuery env.signerAddress])
    | Except.error _ => (0, [Event.balanceQuery env.signerAddress])

/-- `X402Service.getSignerBalance`: native CRO balance of the signer
wallet via `provider.getBalance`, formatted with `formatEther`; failures
are caught and reported as `'0'`. -/
def getSignerBalance (env : Env) : ℚ × List Event :=
  match getSigner env.privateKey with
  | Except.error _ => (0, [])
  | Except.ok _ =>
    match env.nativeBalance env.signerAddress with
    | Except.ok n => ((n : ℚ) / 1000000000000000000, [Event.nativeBalanceQuery env.signerAddress])
    | Except.error _ => (0, [Event.nativeBalanceQuery env.signerAddress])

/-- `PaymentService.getBalance(userAddress)`: ignores the supplied
address entirely and returns the server signer wallet's USDCe balance
(`return await this.x402Service.getUSDCeBalance()`). -/
def PaymentService.getBalance (env : Env) (_userAddress : String) : ℚ × List Event :=
  getUSDCeBalance env

/-- `PaymentService.getCROBalance`. -/
def PaymentService.getCROBalance (env : Env) : ℚ × List Event :=
  getSignerBalance env

/-- `PaymentService.getToolPrice`: catalog lookup returning
`(priceInCRO, priceInUSDC)` or `null`. -/
def PaymentService.getToolPrice (toolId : String) : Option (ℚ × ℚ) :=
  (findTool toolId).map fun t => (t.priceInCRO, t.priceInUSDC)

/-- `PaymentService.processPayment(userAddress, toolId)`: looks the tool
up again, treats free tools as already paid, otherwise runs the x402
payment against the configured recipient and reports a plain success
flag; every thrown error is caught and reported as `false`.  The supplied
`userAddress` is never used. -/
def PaymentService.processPayment (env : Env) (_userAddress : String) (toolId : String) :
    Bool × List Event :=
  match findTool toolId with
  | none => (false, [])
  | some tool =>
    if tool.tier = Tier.free then (true, [])
    else
      let result := executeToolPayment env toolId tool.priceInCRO
      (result.1.success, result.2)

/-- Request arguments: the `arguments` object of a tool call, as a
string-keyed record (only string-valued fields are read by the paths
under verification). -/
def Args := List (String × String)

/-- Field access `args.field` (absent → `undefined` → `none`). -/
def argGet (args : Args) (field : String) : Option String :=
  List.lookup field args

/-- `getUserAddress` of src/index.ts:
`args.address || args.userAddress || process.env.DEFAULT_USER_ADDRESS || '0x0…0'`. -/
def getUserAddress (env : Env) (args : Args) : String :=
  jsStrOr (argGet args "address")
    (jsStrOr (argGet args "userAddress")
      (jsStrOr env.defaultUserAddress "0x0000000000000000000000000000000000000000"))

/-- Structured form of the `Error` values thrown inside the dispatcher's
`try` block; `errMessage` below is the exact message string the source
builds for each. -/
inductive DispatchError where
  /-- `Tool 'name' not found` -/
  | toolNotFound (toolName : String)
  /-- `Insufficient USDCe balance. You have … but need …` with the queried
  balance and the catalog price. -/
  | insufficientFunds (haveBal needBal : ℚ)
  /-- `Payment verification failed. Check logs above for details.` -/
  | paymentFailed
  /-- An exception thrown by the tool's execution handler. -/
  | handlerError (msg : String)
  /-- `Tool implementation not found for toolId` (default switch case). -/
  | implNotFound (toolId : String)
deriving DecidableEq, Repr

/-- The exact message string of each thrown error. -/
def errMessage : DispatchError → String
  | DispatchError.toolNotFound n => "Tool '" ++ n ++ "' not found"
  | DispatchError.insufficientFunds h n =>
      "Insufficient USDCe balance. You have " ++ ratStr h ++ " USDCe but need " ++
        ratStr n ++ " USDCe. Get testnet USDCe from: https://faucet.cronos.org"
  | DispatchError.paymentFailed => "Payment verification failed. Check logs above for details."
  | DispatchError.handlerError m => m
  | DispatchError.implNotFound t => "Tool implementation not found for " ++ t

/-- Naive substring search on character lists (semantics of JavaScript
`String.prototype.includes`). -/
def charsInclude (pat : List Char) : List Char → Bool
  | [] => pat.isEmpty
  | c :: rest => pat.isPrefixOf (c :: rest) || charsInclude pat rest

/-- `haystack.includes(pat)`. -/
def strIncludes (haystack pat : String) : Bool :=
  charsInclude pat.data haystack.data

/-- `getErrorSuggestion` of src/index.ts: substring dispatch on the error
message. -/
def getErrorSuggestion (e : DispatchError) : String :=
  let msg := errMessage e
  if strIncludes msg "Insufficient USDCe" then
    "Get testnet USDCe from https://faucet.cronos.org then swap TCRO to USDCe on a testnet DEX"
  else if strIncludes msg "Insufficient balance" then
    "Please add more funds to your wallet to use this paid tool."
  else if strIncludes msg "not found" then
    "Check the tool name and try again."
  else
    "Please check the error and try again."

/-- Body of a tool invocation response as serialized by `executeTool` /
the error path of the dispatcher. -/
structure ToolResult where
  success : Bool
  tool : String
  tier : Option String
  paymentMethod : Option String := none
  paidAmount : Option String := none
  data : String
deriving DecidableEq, Repr

/-- The JSON payload placed in the response envelope. -/
inductive ResponseBody where
  /-- A normal `executeTool` result. -/
  | toolResult (r : ToolResult)
  /-- The `handleX402Status` result (`success, x402: …, message`): note it
  carries no `tier` field. -/
  | statusResult (usdceBalance croBalance : ℚ) (recipient capabilities : String)
  /-- The catch-branch payload `error, tool, suggestion`. -/
  | errorResult (e : DispatchError) (tool : String) (suggestion : String)
deriving DecidableEq, Repr

/-- The response returned for every request: the payload plus the MCP
`isError` flag. -/
structure Envelope where
  body : ResponseBody
  isError : Bool
deriving DecidableEq, Repr

/-- The `tier` field of the response payload, when present. -/
def Envelope.tierField (e : Envelope) : Option String :=
  match e.body with
  | ResponseBody.toolResult r => r.tier
  | _ => none

/-- Whether the response payload carries any payment receipt information
(`paymentMethod` / `paidAmount`). -/
def Envelope.hasReceipt (e : Envelope) : Bool :=
  match e.body with
  | ResponseBody.toolResult r => r.paymentMethod.isSome || r.paidAmount.isSome
  | _ => false

/-- Error envelope built by the dispatcher's catch branch. -/
def mkError (e : DispatchError) (toolName : String) : Envelope :=
  { body := ResponseBody.errorResult e toolName (getErrorSuggestion e), isError := true }

/-- `executeTool` of src/index.ts: the per-tool switch.  The handler's
data payload (or thrown message) comes from the oracle; tier and
paid-amount strings are the hardcoded literals of the source. -/
def executeTool (env : Env) (toolId : String) (_args : Args) :
    Except DispatchError ToolResult × List Event :=
  let free : Except DispatchError ToolResult × List Event :=
    (match env.handlerData toolId with
     | Except.ok d =>
        Except.ok { success := true, tool := toolId, tier := some "free", data := d }
     | Except.error m => Except.error (DispatchError.handlerError m), [Event.executed toolId])
  let paid (tierName amt : String) : Except DispatchError ToolResult × List Event :=
    (match env.handlerData toolId with
     | Except.ok d =>
        Except.ok { success := true, tool := toolId, tier := some tierName,
                    paymentMethod := some "x402", paidAmount := some amt, data := d }
     | Except.error m => Except.error (DispatchError.handlerError m), [Event.executed toolId])
  if toolId = "get_cronos_balance" then free
  else if toolId = "get_gas_price" then free
  else if toolId = "get_token_price" then free
  else if toolId = "check_transaction_status" then free
  else if toolId = "analyze_wallet_portfolio" then paid "premium" "0.5 CRO"
  else if toolId = "get_historical_price_data" then paid "premium" "0.25 CRO"
  else if toolId = "find_arbitrage_opportunities" then paid "premium" "1.0 CRO"
  else if toolId = "optimize_swap_route" then paid "premium" "0.4 CRO"
  else if toolId = "execute_token_swap" then paid "ultra" "5.0 CRO"
  else if toolId = "auto_compound_rewards" then paid "ultra" "7.5 CRO"
  else (Except.error (DispatchError.implNotFound toolId), [])

/-- `handleX402Status`: reports capabilities, the two balances and the
recipient; creates no payment attempt. -/
def handleX402Status (env : Env) : ResponseBody × List Event :=
  let usdce := PaymentService.getBalance env ""
  let cro := PaymentService.getCROBalance env
  (ResponseBody.statusResult usdce.1 cro.1 env.recipientAddress env.capabilities,
    usdce.2 ++ cro.2)

/-- `handlePayment` of src/index.ts: queries USDCe and CRO balances and
the catalog price, throws the insufficient-funds error when
`parseFloat(usdceBalance) < (price?.cro || 0)`, otherwise runs
`processPayment` and returns its success flag. -/
def handlePayment (env : Env) (userAddress : String) (tool : ToolDefinition) :
    Except DispatchError Bool × List Event :=
  let bal := PaymentService.getBalance env userAddress
  let cro := PaymentService.getCROBalance env
  let price := PaymentService.getToolPrice tool.id
  if bal.1 < jsNumOr (price.map Prod.fst) 0 then
    (Except.error (DispatchError.insufficientFunds bal.1 (jsNumOr (price.map Prod.fst) 0)),
      bal.2 ++ cro.2)
  else
    let pp := PaymentService.processPayment env userAddress tool.id
    (Except.ok pp.1, bal.2 ++ cro.2 ++ pp.2)

/-- The `CallToolRequestSchema` handler of src/index.ts: catalog lookup,
status-tool special case, payment gate for non-free tiers, execution, and
the catch branch that turns every thrown error into an error envelope. -/
def callTool (env : Env) (toolName : String) (args : Args) : Envelope × List Event :=
  match findTool toolName with
  | none => (mkError (DispatchError.toolNotFound toolName) toolName, [])
  | some tool =>
    if toolName = "check_x402_status" then
      let st := handleX402Status env
      ({ body := st.1, isError := false }, st.2)
    else if tool.tier != Tier.free then
      let hp := handlePayment env (getUserAddress env args) tool
      match hp.1 with
      | Except.error e => (mkError e toolName, hp.2)
      | Except.ok false => (mkError DispatchError.paymentFailed toolName, hp.2)
      | Except.ok true =>
        let ex := executeTool env toolName args
        match ex.1 with
        | Except.ok r => ({ body := ResponseBody.toolResult r, isError := false }, hp.2 ++ ex.2)
        | Except.error e => (mkError e toolName, hp.2 ++ ex.2)
    else
      let ex := executeTool env toolName args
      match ex.1 with
      | Except.ok r => ({ body := ResponseBody.toolResult r, isError := false }, ex.2)
      | Except.error e => (mkError e toolName, ex.2)

/-! ### Concrete oracle environments used by witnesses and counterexamples -/

/-- A fully healthy environment: key present, 10 USDCe balance, all
facilitator calls succeed, settlement returns a transaction hash. -/
def envOk : Env :=
  { privateKey := "0xKEY", signerAddress := "0xSIGNER", recipientAddress := "0xPAYEE",
    defaultUserAddress := none,
    balanceOf := fun _ => Except.ok 10000000,
    balanceOfAfter := fun _ => Except.ok 9500000,
    nativeBalance := fun _ => Except.ok 1000000000000000000,
    generateHeader := Except.ok "HDR",
    requirements := "REQ",
    verifyResult := Except.ok { isValid := true, invalidReason := none },
    settleResult := Except.ok { txHash := some "0xTX", error := none },
    capabilities := "CAPS",
    handlerData := fun _ => Except.ok "DATA",
    nowMs := 1700000000000 }

/-- Same as `envOk` but the signer wallet holds only 0.2 USDCe. -/
def envPoor : Env :=
  { envOk with
    balanceOf := fun _ => Except.ok 200000,
    balanceOfAfter := fun _ => Except.ok 200000 }

/-- Settlement returns no transaction reference; the post-settlement read
shows a decrease of exactly 1 base unit (0.000001 USDCe). -/
def envNoTx : Env :=
  { envOk with
    balanceOf := fun _ => Except.ok 1000000,
    balanceOfAfter := fun _ => Except.ok 999999,
    settleResult := Except.ok { txHash := none, error := none } }

/-- Settlement returns no transaction reference; the post-settlement read
shows a large decrease. -/
def envNoTxBig : Env :=
  { envOk with
    balanceOf := fun _ => Except.ok 1000000,
    balanceOfAfter := fun _ => Except.ok 400000,
    settleResult := Except.ok { txHash := none, error := none } }

/-- The signing credential is absent (`PRIVATE_KEY` unset). -/
def envNoKey : Env :=
  { envOk with privateKey := "" }

/-- The facilitator verification call throws a network error. -/
def envVerifyDown : Env :=
  { envOk with verifyResult := Except.error "network down" }

/-- The catalog entry of the premium tool `analyze_wallet_portfolio`
(price 0.5, i.e. the spec scenario tool). -/
def analyzeTool : ToolDefinition :=
  { id := "analyze_wallet_portfolio", name := "Analyze Wallet Portfolio", tier := Tier.premium,
    priceInCRO := 1/2, priceInUSDC := 1/100, required := ["address"] }

/-- The catalog entry of the free tool `get_gas_price`. -/
def gasTool : ToolDefinition :=
  { id := "get_gas_price", name := "Get Gas Price", tier := Tier.free,
    priceInCRO := 0, priceInUSDC := 0, required := [] }

/-! ### Helper lemmas -/

theorem natStrAux_eq_digits :
    ∀ fuel n, n ≤ fuel → natStrAux fuel n = ((Nat.digits 10 n).reverse).map digitChar := by
  intro fuel
  induction fuel with
  | zero =>
    intro n hn
    have hn0 : n = 0 := Nat.le_zero.mp hn
    subst hn0
    simp [natStrAux]
  | succ fuel ih =>
    intro n hn
    by_cases h0 : n = 0
    · subst h0
      simp [natStrAux]
    · have hpos : 0 < n := Nat.pos_of_ne_zero h0
      have hdiv : n / 10 ≤ fuel := by
        have : n / 10 < n := Nat.div_lt_self hpos (by norm_num)
        omega
      have hdig : Nat.digits 10 n = n % 10 :: Nat.digits 10 (n / 10) :=
        Nat.digits_def' (by norm_num) hpos
      simp [natStrAux, h0, ih (n / 10) hdiv, hdig]

theorem digitChar_inj_lt : ∀ d1 < 10, ∀ d2 < 10, digitChar d1 = digitChar d2 → d1 = d2 := by
  decide

theorem map_digitChar_inj :
    ∀ l1 l2 : List Nat, (∀ d ∈ l1, d < 10) → (∀ d ∈ l2, d < 10) →
      l1.map digitChar = l2.map digitChar → l1 = l2 := by
  intro l1
  induction l1 with
  | nil =>
    intro l2 _ _ h
    cases l2 with
    | nil => rfl
    | cons b bs => simp at h
  | cons a as ih =>
    intro l2 h1 h2 h
    cases l2 with
    | nil => simp at h
    | cons b bs =>
      simp only [List.map_cons, List.cons.injEq] at h
      have ha : a < 10 := h1 a (List.mem_cons_self a as)
      have hb : b < 10 := h2 b (List.mem_cons_self b bs)
      have hab : a = b := digitChar_inj_lt a ha b hb h.1
      have htl : as = bs :=
        ih bs (fun d hd => h1 d (List.mem_cons_of_mem a hd))
          (fun d hd => h2 d (List.mem_cons_of_mem b hd)) h.2
      rw [hab, htl]

theorem natStr_data_of_ne_zero (n : Nat) (hn : n ≠ 0) :
    (natStr n).data = ((Nat.digits 10 n).reverse).map digitChar := by
  rw [natStr, if_neg hn]
  exact natStrAux_eq_digits n n (Nat.le_refl n)

theorem digits_reverse_lt (n : Nat) : ∀ d ∈ (Nat.digits 10 n).reverse, d < 10 := by
  intro d hd
  exact Nat.digits_lt_base (by norm_num) (List.mem_reverse.mp hd)

theorem natStr_ne_zero_str (n : Nat) (hn : n ≠ 0) : natStr n ≠ "0" := by
  intro hc
  have hd : ((Nat.digits 10 n).reverse).map digitChar = ['0'] := by
    have h2 := congrArg String.data hc
    rw [natStr_data_of_ne_zero n hn] at h2
    simpa using h2
  rcases hrev : (Nat.digits 10 n).reverse with _ | ⟨d, ds⟩
  · have hnil : Nat.digits 10 n = [] := by
      have h3 := congrArg List.reverse hrev
      simpa using h3
    exact hn (Nat.digits_eq_nil_iff_eq_zero.mp hnil)
  · rw [hrev] at hd
    simp only [List.map_cons, List.cons.injEq] at hd
    have hds : ds = [] := by
      rcases ds with _ | ⟨e, es⟩
      · rfl
      · simp at hd
    subst hds
    have hdig : Nat.digits 10 n = [d] := by
      have h3 := congrArg List.reverse hrev
      simpa using h3
    have hdlt : d < 10 := Nat.digits_lt_base (by norm_num) (by rw [hdig]; simp)
    have hd0 : d = 0 := by
      apply digitChar_inj_lt d hdlt 0 (by norm_num)
      rw [hd.1]
      decide
    subst hd0
    have hzero : n = Nat.ofDigits 10 [0] := by
      rw [← Nat.ofDigits_digits 10 n, hdig]
    simp [Nat.ofDigits] at hzero
    exact hn hzero

theorem natStr_inj (m n : Nat) (h : natStr m = natStr n) : m = n := by
  by_cases hm : m = 0 <;> by_cases hn : n = 0
  · rw [hm, hn]
  · exfalso
    apply natStr_ne_zero_str n hn
    rw [← h, hm]
    rfl
  · exfalso
    apply natStr_ne_zero_str m hm
    rw [h, hn]
    rfl
  · have hd := congrArg String.data h
    rw [natStr_data_of_ne_zero m hm, natStr_data_of_ne_zero n hn] at hd
    have hrev := map_digitChar_inj _ _ (digits_reverse_lt m) (digits_reverse_lt n) hd
    have hdig : Nat.digits 10 m = Nat.digits 10 n := by
      have h3 := congrArg List.reverse hrev
      simpa using h3
    calc m = Nat.ofDigits 10 (Nat.digits 10 m) := (Nat.ofDigits_digits 10 m).symm
      _ = Nat.ofDigits 10 (Nat.digits 10 n) := by rw [hdig]
      _ = n := Nat.ofDigits_digits 10 n

theorem paymentId_inj (toolId : String) (t1 t2 : Nat)
    (h : paymentId toolId t1 = paymentId toolId t2) : t1 = t2 := by
  apply natStr_inj
  have hd := congrArg String.data h
  simp only [paymentId, String.data_append] at hd
  have hcancel := List.append_cancel_left hd
  exact String.ext hcancel

theorem findTool_id (toolName : String) (tool : ToolDefinition)
    (h : findTool toolName = some tool) : tool.id = toolName := by
  have h2 := List.find?_some h
  simpa using h2

theorem executePaymentEx_trace_prop (env : Env) (q : ℚ) (tid : String) :
    Event.attemptCreated (paymentId tid env.nowMs) ∈ (executePaymentEx env q tid).2 ∧
    ∀ e ∈ (executePaymentEx env q tid).2,
      e = Event.attemptCreated (paymentId tid env.nowMs) ∨
      e = Event.balanceQuery env.signerAddress ∨
      e = Event.headerCall ∨ e = Event.verifyCall ∨ e = Event.settleCall := by
  unfold executePaymentEx
  cases hs : getSigner env.privateKey with
  | error e => simp [hs]
  | ok u =>
  simp only [hs]
  cases hb : env.balanceOf env.signerAddress with
  | error e => simp [hb]
  | ok b =>
  simp only [hb]
  split_ifs with hlt
  · simp
  · cases hh : env.generateHeader with
    | error e => simp [hh]
    | ok hd =>
    simp only [hh]
    cases hv : env.verifyResult with
    | error e => simp [hv]
    | ok v =>
    simp only [hv]
    split_ifs with hvi
    · simp
    · cases hst : env.settleResult with
      | error e => simp [hst]
      | ok s =>
      simp only [hst]
      cases htx : s.txHash with
      | none =>
        simp only [htx]
        cases ha : env.balanceOfAfter env.signerAddress with
        | error e => simp [ha]
        | ok b2 =>
        simp only [ha]
        split_ifs with hdec
        · simp
        · simp
      | some tx =>
        simp only [htx]
        cases ha : env.balanceOfAfter env.signerAddress with
        | error e => simp [ha]
        | ok b2 => simp [ha]

theorem executePaymentEx_attempt_mem (env : Env) (q : ℚ) (tid : String) :
    Event.attemptCreated (paymentId tid env.nowMs) ∈ (executePaymentEx env q tid).2 :=
  (executePaymentEx_trace_prop env q tid).1

theorem executePaymentEx_no_executed (env : Env) (q : ℚ) (tid n : String) :
    Event.executed n ∉ (executePaymentEx env q tid).2 := by
  intro h
  have h2 := (executePaymentEx_trace_prop env q tid).2 _ h
  simp at h2

theorem executePaymentEx_balanceQuery (env : Env) (q : ℚ) (tid a : String)
    (h : Event.balanceQuery a ∈ (executePaymentEx env q tid).2) : a = env.signerAddress := by
  have h2 := (executePaymentEx_trace_prop env q tid).2 _ h
  simpa using h2

theorem executePayment_trace_outcome (env : Env) (q : ℚ) (tid : String) :
    ∃ tr, (executePayment env q tid).2 =
      tr ++ [Event.outcome (executePayment env q tid).1.success] := by
  unfold executePayment
  split
  · exact ⟨_, rfl⟩
  · exact ⟨_, rfl⟩

theorem executePayment_no_executed (env : Env) (q : ℚ) (tid n : String) :
    Event.executed n ∉ (executePayment env q tid).2 := by
  unfold executePayment
  split
  all_goals rename_i heq
  all_goals simp only [List.mem_append, List.mem_singleton]
  all_goals intro h
  all_goals rcases h with h | h
  · exact executePaymentEx_no_executed env q tid n (by rw [heq]; exact h)
  · simp at h
  · exact executePaymentEx_no_executed env q tid n (by rw [heq]; exact h)
  · simp at h

theorem executePayment_attempt_mem (env : Env) (q : ℚ) (tid : String) :
    Event.attemptCreated (paymentId tid env.nowMs) ∈ (executePayment env q tid).2 := by
  unfold executePayment
  split
  all_goals rename_i heq
  all_goals simp only [List.mem_append, List.mem_singleton]
  all_goals left
  · have h2 := executePaymentEx_attempt_mem env q tid
    rw [heq] at h2
    exact h2
  · have h2 := executePaymentEx_attempt_mem env q tid
    rw [heq] at h2
    exact h2

theorem executePayment_balanceQuery (env : Env) (q : ℚ) (tid a : String)
    (h : Event.balanceQuery a ∈ (executePayment env q tid).2) : a = env.signerAddress := by
  revert h
  unfold executePayment
  split
  all_goals rename_i heq
  all_goals simp only [List.mem_append, List.mem_singleton]
  all_goals intro h
  all_goals rcases h with h | h
  · exact executePaymentEx_balanceQuery env q tid a (by rw [heq]; exact h)
  · simp at h
  · exact executePaymentEx_balanceQuery env q tid a (by rw [heq]; exact h)
  · simp at h

theorem getUSDCeBalance_events (env : Env) :
    ∀ e ∈ (getUSDCeBalance env).2, e = Event.balanceQuery env.signerAddress := by
  unfold getUSDCeBalance
  repeat' split
  all_goals simp

theorem getSignerBalance_events (env : Env) :
    ∀ e ∈ (getSignerBalance env).2, e = Event.nativeBalanceQuery env.signerAddress := by
  unfold getSignerBalance
  repeat' split
  all_goals simp

theorem processPayment_no_executed (env : Env) (u toolId n : String) :
    Event.executed n ∉ (PaymentService.processPayment env u toolId).2 := by
  unfold PaymentService.processPayment
  dsimp only
  repeat' split
  all_goals simp only [executeToolPayment]
  · simp
  · simp
  · exact executePayment_no_executed env _ toolId n

theorem processPayment_true_outcome (env : Env) (u toolId : String) (tool : ToolDefinition)
    (hf : findTool toolId = some tool) (ht : tool.tier ≠ Tier.free)
    (hs : (PaymentService.processPayment env u toolId).1 = true) :
    Event.outcome true ∈ (PaymentService.processPayment env u toolId).2 := by
  unfold PaymentService.processPayment at hs ⊢
  rw [hf] at hs ⊢
  dsimp only at hs ⊢
  simp only [if_neg ht] at hs ⊢
  rcases executePayment_trace_outcome env tool.priceInCRO toolId with ⟨tr, htr⟩
  simp only [executeToolPayment] at hs ⊢
  rw [htr]
  rw [hs]
  simp

theorem handlePayment_no_executed (env : Env) (u : String) (tool : ToolDefinition) (n : String) :
    Event.executed n ∉ (handlePayment env u tool).2 := by
  unfold handlePayment
  dsimp only
  split
  · simp only [List.mem_append]
    intro h
    rcases h with h | h
    · have := getUSDCeBalance_events env _ h
      simp at this
    · have := getSignerBalance_events env _ h
      simp at this
  · simp only [List.mem_append]
    intro h
    rcases h with (h | h) | h
    · have := getUSDCeBalance_events env _ h
      simp at this
    · have := getSignerBalance_events env _ h
      simp at this
    · exact processPayment_no_executed env u tool.id n h

theorem handlePayment_true_outcome (env : Env) (u : String) (tool : ToolDefinition)
    (hf : findTool tool.id = some tool) (ht : tool.tier ≠ Tier.free)
    (h : (handlePayment env u tool).1 = Except.ok true) :
    Event.outcome true ∈ (handlePayment env u tool).2 := by
  unfold handlePayment at h ⊢
  dsimp only at h ⊢
  split at h
  · simp at h
  · simp only at h
    have hs : (PaymentService.processPayment env u tool.id).1 = true := by
      injection h
    rename_i hcond
    simp only [if_neg hcond]
    have hmem := processPayment_true_outcome env u tool.id tool hf ht hs
    simp [List.mem_append, hmem]

theorem executePayment_events (env : Env) (q : ℚ) (tid : String) :
    ∀ e ∈ (executePayment env q tid).2,
      e = Event.attemptCreated (paymentId tid env.nowMs) ∨
      e = Event.balanceQuery env.signerAddress ∨
      e = Event.headerCall ∨ e = Event.verifyCall ∨ e = Event.settleCall ∨
      ∃ b, e = Event.outcome b := by
  intro e he
  revert he
  unfold executePayment
  split
  all_goals rename_i heq
  all_goals simp only [List.mem_append, List.mem_singleton]
  all_goals intro he
  all_goals rcases he with he | he
  · have h2 := (executePaymentEx_trace_prop env q tid).2 e (by rw [heq]; exact he)
    tauto
  · exact Or.inr (Or.inr (Or.inr (Or.inr (Or.inr ⟨_, he⟩))))
  · have h2 := (executePaymentEx_trace_prop env q tid).2 e (by rw [heq]; exact he)
    tauto
  · exact Or.inr (Or.inr (Or.inr (Or.inr (Or.inr ⟨_, he⟩))))

theorem processPayment_events (env : Env) (u toolId : String) :
    ∀ e ∈ (PaymentService.processPayment env u toolId).2,
      e = Event.attemptCreated (paymentId toolId env.nowMs) ∨
      e = Event.balanceQuery env.signerAddress ∨
      e = Event.headerCall ∨ e = Event.verifyCall ∨ e = Event.settleCall ∨
      ∃ b, e = Event.outcome b := by
  intro e he
  revert he
  unfold PaymentService.processPayment
  dsimp only
  repeat' split
  · simp
  · simp
  · simp only [executeToolPayment]
    exact fun he => executePayment_events env _ toolId e he

theorem handlePayment_events (env : Env) (u : String) (tool : ToolDefinition) :
    ∀ e ∈ (handlePayment env u tool).2,
      e = Event.balanceQuery env.signerAddress ∨
      e = Event.nativeBalanceQuery env.signerAddress ∨
      e = Event.attemptCreated (paymentId tool.id env.nowMs) ∨
      e = Event.headerCall ∨ e = Event.verifyCall ∨ e = Event.settleCall ∨
      ∃ b, e = Event.outcome b := by
  intro e he
  revert he
  unfold handlePayment
  dsimp only
  split
  · simp only [List.mem_append]
    intro he
    rcases he with he | he
    · exact Or.inl (getUSDCeBalance_events env e he)
    · exact Or.inr (Or.inl (getSignerBalance_events env e he))
  · simp only [List.mem_append]
    intro he
    rcases he with (he | he) | he
    · exact Or.inl (getUSDCeBalance_events env e he)
    · exact Or.inr (Or.inl (getSignerBalance_events env e he))
    · have h2 := processPayment_events env u tool.id e he
      tauto

theorem jsNumOr_some_zero (q : ℚ) : jsNumOr (some q) 0 = q := by
  rcases eq_or_ne q 0 with h | h <;> simp [jsNumOr, h]

theorem findTool_ne_status (toolName : String) (tool : ToolDefinition)
    (hf : findTool toolName = some tool) (ht : tool.tier ≠ Tier.free) :
    toolName ≠ "check_x402_status" := by
  intro hst
  have h2 : (findTool "check_x402_status").map ToolDefinition.tier = some Tier.free := rfl
  rw [← hst, hf] at h2
  simp only [Option.map_some'] at h2
  exact ht (Option.some.inj h2)

theorem handlePayment_insufficient (env : Env) (u : String) (tool : ToolDefinition)
    (hcond : (PaymentService.getBalance env u).1 <
      jsNumOr ((PaymentService.getToolPrice tool.id).map Prod.fst) 0) :
    handlePayment env u tool =
      (Except.error (DispatchError.insufficientFunds
          (PaymentService.getBalance env u).1
          (jsNumOr ((PaymentService.getToolPrice tool.id).map Prod.fst) 0)),
        (PaymentService.getBalance env u).2 ++ (PaymentService.getCROBalance env).2) := by
  unfold handlePayment
  dsimp only
  rw [if_pos hcond]

theorem handleX402Status_events (env : Env) :
    ∀ e ∈ (handleX402Status env).2,
      e = Event.balanceQuery env.signerAddress ∨
      e = Event.nativeBalanceQuery env.signerAddress := by
  intro e he
  unfold handleX402Status at he
  dsimp only at he
  rcases List.mem_append.mp he with h | h
  · exact Or.inl (getUSDCeBalance_events env e h)
  · exact Or.inr (getSignerBalance_events env e h)

/-! ### Claim theorems -/

section ClaimTheorems

attribute [local semireducible] Rat.mul Rat.add Rat.sub Rat.inv

/-- C4: for every tool id not present in the tool catalog, `callTool`
returns the `toolNotFound` error envelope (with `isError` set) and the
event trace is empty: no balance query and no other side effect is
performed for that request. -/
theorem unknown_tool_no_side_effects (env : Env) (toolName : String) (args : Args)
    (hf : findTool toolName = none) :
    (callTool env toolName args).1 = mkError (DispatchError.toolNotFound toolName) toolName ∧
    (callTool env toolName args).1.isError = true ∧
    (callTool env toolName args).2 = [] := by
  unfold callTool
  rw [hf]
  exact ⟨rfl, rfl, rfl⟩

/-- C4 witness: the unknown id `no_such_tool` yields the not-found error
envelope and an empty trace. -/
theorem unknown_tool_no_side_effects_witness :
    (callTool envOk "no_such_tool" []).1 =
      mkError (DispatchError.toolNotFound "no_such_tool") "no_such_tool" ∧
    (callTool envOk "no_such_tool" []).1.isError = true ∧
    (callTool envOk "no_such_tool" []).2 = [] :=
  unknown_tool_no_side_effects envOk "no_such_tool" [] rfl

/-- C8: every run of `executePayment` creates a payment attempt whose id
is `toolId ++ "-" ++ <creation timestamp>`, and two attempts created at
different timestamps have distinct ids, so re-invoking the same tool
always yields a fresh attempt — attempts are never merged or reused. -/
theorem payment_attempts_fresh (env : Env) (q : ℚ) (tid : String) (t1 t2 : Nat)
    (h : t1 ≠ t2) :
    Event.attemptCreated (paymentId tid env.nowMs) ∈ (executePayment env q tid).2 ∧
    paymentId tid t1 ≠ paymentId tid t2 := by
  refine ⟨executePayment_attempt_mem env q tid, ?_⟩
  intro hc
  exact h (paymentId_inj tid t1 t2 hc)

/-- C8 witness: two attempts for `analyze_wallet_portfolio` created 1 ms
apart have distinct attempt ids. -/
theorem payment_attempts_fresh_witness :
    Event.attemptCreated (paymentId "analyze_wallet_portfolio" envOk.nowMs) ∈
      (executePayment envOk (1/2) "analyze_wallet_portfolio").2 ∧
    paymentId "analyze_wallet_portfolio" 1700000000000 ≠
      paymentId "analyze_wallet_portfolio" 1700000000001 :=
  payment_attempts_fresh envOk (1/2) "analyze_wallet_portfolio"
    1700000000000 1700000000001 (by decide)

/-- C9: the per-request principal address has no effect on the payment
pipeline: `handlePayment`, `processPayment` and the balance read are
identical for any two principals, and every USDCe / native balance query
issued by the pipeline targets the server's own signer wallet. -/
theorem principal_has_no_effect_on_payment (env : Env) (u1 u2 : String)
    (tool : ToolDefinition) (toolId : String) :
    handlePayment env u1 tool = handlePayment env u2 tool ∧
    PaymentService.processPayment env u1 toolId = PaymentService.processPayment env u2 toolId ∧
    PaymentService.getBalance env u1 = PaymentService.getBalance env u2 ∧
    (∀ a, Event.balanceQuery a ∈ (handlePayment env u1 tool).2 → a = env.signerAddress) ∧
    (∀ a, Event.nativeBalanceQuery a ∈ (handlePayment env u1 tool).2 → a = env.signerAddress) := by
  refine ⟨rfl, rfl, rfl, ?_, ?_⟩
  · intro a ha
    have h2 := handlePayment_events env u1 tool _ ha
    simpa using h2
  · intro a ha
    have h2 := handlePayment_events env u1 tool _ ha
    simpa using h2

/-- C9 witness: with the healthy environment and two distinct principals,
the payment pipeline behaves identically, and the USDCe balance query it
issues targets the signer wallet `0xSIGNER`. -/
theorem principal_has_no_effect_on_payment_witness :
    handlePayment envOk "0xALICE" analyzeTool = handlePayment envOk "0xBOB" analyzeTool ∧
    "0xSIGNER" = envOk.signerAddress :=
  ⟨(principal_has_no_effect_on_payment envOk "0xALICE" "0xBOB" analyzeTool
      "analyze_wallet_portfolio").1,
    (principal_has_no_effect_on_payment envOk "0xALICE" "0xBOB" analyzeTool
      "analyze_wallet_portfolio").2.2.2.1 "0xSIGNER" (by decide)⟩

/-- C10: `executePayment` is total with respect to errors: whenever any
internal step of the payment (signer creation, balance read, header
generation, verification, settlement, post-settlement read) throws, the
caller receives a result record with `success = verified = settled =
false` and the thrown message in `error` — no exception propagates. -/
theorem execute_payment_never_throws (env : Env) (q : ℚ) (tid : String) (msg : String)
    (h : (executePaymentEx env q tid).1 = Except.error msg) :
    (executePayment env q tid).1.success = false ∧
    (executePayment env q tid).1.verified = false ∧
    (executePayment env q tid).1.settled = false ∧
    (executePayment env q tid).1.error = some msg := by
  have h1 : executePaymentEx env q tid = (Except.error msg, (executePaymentEx env q tid).2) := by
    rcases hx : executePaymentEx env q tid with ⟨res, tr⟩
    rw [hx] at h
    simp only at h
    rw [h]
  unfold executePayment
  rw [h1]
  exact ⟨rfl, rfl, rfl, rfl⟩

/-- C10 witness: when the facilitator verification call throws
`network down`, the caller receives a failure record carrying that
message, with all flags false. -/
theorem execute_payment_never_throws_witness :
    (executePayment envVerifyDown (1/2) "analyze_wallet_portfolio").1.success = false ∧
    (executePayment envVerifyDown (1/2) "analyze_wallet_portfolio").1.verified = false ∧
    (executePayment envVerifyDown (1/2) "analyze_wallet_portfolio").1.settled = false ∧
    (executePayment envVerifyDown (1/2) "analyze_wallet_portfolio").1.error =
      some "network down" :=
  execute_payment_never_throws envVerifyDown (1/2) "analyze_wallet_portfolio"
    "network down" (by rfl)

/-- C1: for every paid-tier tool, the execution handler runs only after
the payment pipeline produced an `X402PaymentResult` with `success = true`:
if the handler-invocation event occurs in the trace, a success outcome
event strictly precedes it; and whenever the payment pipeline fails or
throws (`handlePayment` does not return `ok true`), the dispatcher
returns an error envelope and the handler-invocation event never occurs. -/
theorem paid_tool_requires_payment_success (env : Env) (toolName : String) (args : Args)
    (tool : ToolDefinition) (hf : findTool toolName = some tool)
    (ht : tool.tier ≠ Tier.free) :
    (Event.executed toolName ∈ (callTool env toolName args).2 →
      ∃ pre post, (callTool env toolName args).2 = pre ++ Event.outcome true :: post ∧
        Event.executed toolName ∈ post) ∧
    ((handlePayment env (getUserAddress env args) tool).1 ≠ Except.ok true →
      (callTool env toolName args).1.isError = true ∧
      Event.executed toolName ∉ (callTool env toolName args).2) := by
  have hid : tool.id = toolName := findTool_id toolName tool hf
  have hnst : toolName ≠ "check_x402_status" := findTool_ne_status toolName tool hf ht
  have htb : (tool.tier != Tier.free) = true := bne_iff_ne.mpr ht
  unfold callTool
  rw [hf]
  dsimp only
  rw [if_neg hnst, if_pos htb]
  cases hhp : (handlePayment env (getUserAddress env args) tool).1 with
  | error e =>
    dsimp only
    constructor
    · intro hmem
      exact absurd hmem (handlePayment_no_executed env _ tool toolName)
    · intro _
      exact ⟨rfl, handlePayment_no_executed env _ tool toolName⟩
  | ok b =>
    cases b with
    | false =>
      dsimp only
      constructor
      · intro hmem
        exact absurd hmem (handlePayment_no_executed env _ tool toolName)
      · intro _
        exact ⟨rfl, handlePayment_no_executed env _ tool toolName⟩
    | true =>
      have hout : Event.outcome true ∈ (handlePayment env (getUserAddress env args) tool).2 :=
        handlePayment_true_outcome env _ tool (by rw [hid]; exact hf) ht hhp
      obtain ⟨s, t2, hsplit⟩ := List.append_of_mem hout
      have hnotin := handlePayment_no_executed env (getUserAddress env args) tool toolName
      cases hex : (executeTool env toolName args).1 with
      | ok r =>
        dsimp only
        constructor
        · intro hmem
          have hmem' : Event.executed toolName ∈ (executeTool env toolName args).2 := by
            rcases List.mem_append.mp hmem with h | h
            · exact absurd h hnotin
            · exact h
          refine ⟨s, t2 ++ (executeTool env toolName args).2, ?_, ?_⟩
          · rw [hsplit, List.append_assoc, List.cons_append]
          · exact List.mem_append_right _ hmem'
        · intro hne
          exact absurd rfl hne
      | error e =>
        dsimp only
        constructor
        · intro hmem
          have hmem' : Event.executed toolName ∈ (executeTool env toolName args).2 := by
            rcases List.mem_append.mp hmem with h | h
            · exact absurd h hnotin
            · exact h
          refine ⟨s, t2 ++ (executeTool env toolName args).2, ?_, ?_⟩
          · rw [hsplit, List.append_assoc, List.cons_append]
          · exact List.mem_append_right _ hmem'
        · intro hne
          exact absurd rfl hne

/-- C1 witness: with a 0.2-USDCe balance, invoking the paid tool
`analyze_wallet_portfolio` ends in an error envelope and the execution
handler is never invoked. -/
theorem paid_tool_requires_payment_success_witness :
    (callTool envPoor "analyze_wallet_portfolio" []).1.isError = true ∧
    Event.executed "analyze_wallet_portfolio" ∉
      (callTool envPoor "analyze_wallet_portfolio" []).2 :=
  (paid_tool_requires_payment_success envPoor "analyze_wallet_portfolio" [] analyzeTool rfl
    (by decide)).2 (by decide)

/-- C3: for every paid-tier tool, when the queried spendable balance is
strictly below the catalog price, the dispatcher returns the
insufficient-funds error envelope whose reported balance (`have`) is
exactly the queried spendable balance and whose required amount (`need`)
is exactly the catalog price, and the execution handler is not called. -/
theorem insufficient_funds_blocks_execution (env : Env) (toolName : String) (args : Args)
    (tool : ToolDefinition) (hf : findTool toolName = some tool) (ht : tool.tier ≠ Tier.free)
    (hlow : (PaymentService.getBalance env (getUserAddress env args)).1 < tool.priceInCRO) :
    (callTool env toolName args).1 =
      mkError (DispatchError.insufficientFunds
        (PaymentService.getBalance env (getUserAddress env args)).1 tool.priceInCRO) toolName ∧
    (callTool env toolName args).1.isError = true ∧
    Event.executed toolName ∉ (callTool env toolName args).2 := by
  have hid : tool.id = toolName := findTool_id toolName tool hf
  have hnst : toolName ≠ "check_x402_status" := findTool_ne_status toolName tool hf ht
  have htb : (tool.tier != Tier.free) = true := bne_iff_ne.mpr ht
  have hprice : PaymentService.getToolPrice tool.id = some (tool.priceInCRO, tool.priceInUSDC) := by
    unfold PaymentService.getToolPrice
    rw [hid, hf]
    rfl
  have hcond : (PaymentService.getBalance env (getUserAddress env args)).1 <
      jsNumOr ((PaymentService.getToolPrice tool.id).map Prod.fst) 0 := by
    rw [hprice]
    simpa [jsNumOr_some_zero] using hlow
  have hhp := handlePayment_insufficient env (getUserAddress env args) tool hcond
  unfold callTool
  rw [hf]
  dsimp only
  rw [if_neg hnst, if_pos htb, hhp]
  dsimp only
  refine ⟨?_, rfl, ?_⟩
  · rw [hprice]
    simp only [Option.map_some', jsNumOr_some_zero]
  · intro hmem
    rcases List.mem_append.mp hmem with h | h
    · have h2 := getUSDCeBalance_events env _ h
      simp at h2
    · have h2 := getSignerBalance_events env _ h
      simp at h2

/-- C3 witness: the spec scenario — `analyze_wallet_portfolio` at price
0.5 with a 0.2-USDCe balance yields the insufficient-funds envelope with
`have = 0.2` and `need = 0.5`, and the handler is not called. -/
theorem insufficient_funds_blocks_execution_witness :
    (PaymentService.getBalance envPoor (getUserAddress envPoor [])).1 = 1/5 ∧
    (callTool envPoor "analyze_wallet_portfolio" []).1 =
      mkError (DispatchError.insufficientFunds
        (PaymentService.getBalance envPoor (getUserAddress envPoor [])).1
        analyzeTool.priceInCRO) "analyze_wallet_portfolio" ∧
    Event.executed "analyze_wallet_portfolio" ∉
      (callTool envPoor "analyze_wallet_portfolio" []).2 :=
  ⟨by decide,
    (insufficient_funds_blocks_execution envPoor "analyze_wallet_portfolio" [] analyzeTool rfl
      (by decide) (by decide)).1,
    (insufficient_funds_blocks_execution envPoor "analyze_wallet_portfolio" [] analyzeTool rfl
      (by decide) (by decide)).2.2⟩

/-- C2 counterexample: with settlement returning no transaction
reference and the balance decreasing by a single base unit (999999 after
1000000 before, required amount 500000), the code reports `success =
true`, although `balanceAfter ≤ balanceBefore - requiredAmount` is false —
refuting the claimed if-and-only-if. -/
theorem settlement_delta_claim_false :
    envNoTx.settleResult = Except.ok { txHash := none, error := none } ∧
    envNoTx.balanceOf envNoTx.signerAddress = Except.ok 1000000 ∧
    envNoTx.balanceOfAfter envNoTx.signerAddress = Except.ok 999999 ∧
    (executePayment envNoTx (1/2) "analyze_wallet_portfolio").1.success = true ∧
    ¬ ((999999 : ℤ) ≤ 1000000 - usdceWei (1/2)) := by
  exact ⟨rfl, rfl, rfl, by decide, by decide⟩

/-- C2 (amended): in the settlement phase, when the settlement call
returns no transaction reference (and the post-settlement balance read
succeeds), the payment outcome has `success = true` if and only if the
balance strictly decreased (`balanceAfter < balanceBefore` — the code does
not compare the decrease against `requiredAmount`); in every other
no-reference case the outcome is a settlement failure carrying
`settle.error` (or `Settlement failed`). -/
theorem settlement_no_reference_balance_delta (env : Env) (q : ℚ) (tid : String)
    (b1 b2 : Nat) (hdr : String) (v : VerifyResponse) (s : SettleResponse)
    (hk : env.privateKey ≠ "")
    (hb : env.balanceOf env.signerAddress = Except.ok b1)
    (hge : ¬ ((b1 : ℤ) < usdceWei q))
    (hh : env.generateHeader = Except.ok hdr)
    (hv : env.verifyResult = Except.ok v) (hvi : v.isValid = true)
    (hs : env.settleResult = Except.ok s) (htx : s.txHash = none)
    (ha : env.balanceOfAfter env.signerAddress = Except.ok b2) :
    ((executePayment env q tid).1.success = true ↔ b2 < b1) ∧
    (¬ b2 < b1 →
      (executePayment env q tid).1.error = some (s.error.getD "Settlement failed") ∧
      (executePayment env q tid).1.settled = false) := by
  have hsig : getSigner env.privateKey = Except.ok () := by
    unfold getSigner
    rw [if_neg hk]
  unfold executePayment executePaymentEx
  rw [hsig]
  dsimp only
  rw [hb]
  dsimp only
  rw [if_neg hge, hh]
  dsimp only
  rw [hv]
  dsimp only
  rw [hvi]
  rw [if_neg (by simp : ¬ (true = false))]
  rw [hs]
  dsimp only
  rw [htx]
  dsimp only
  rw [ha]
  dsimp only
  split_ifs with hdec
  · constructor
    · simp [hdec]
    · intro hc
      exact absurd hdec hc
  · constructor
    · simp [hdec]
    · intro _
      exact ⟨rfl, rfl⟩

/-- C2 witness for the amended statement: no transaction reference but a
0.6-USDCe decrease yields a success outcome. -/
theorem settlement_no_reference_balance_delta_witness :
    (executePayment envNoTxBig (1/2) "analyze_wallet_portfolio").1.success = true :=
  (settlement_no_reference_balance_delta envNoTxBig (1/2) "analyze_wallet_portfolio"
    1000000 400000 "HDR" { isValid := true, invalidReason := none }
    { txHash := none, error := none }
    (by decide) rfl (by decide) rfl rfl rfl rfl rfl rfl).1.mpr (by decide)

/-- C6 counterexample: construction of the payment service does NOT fail
when the signing credential is missing — `X402Service.init ""` completes,
only recording the missing-key warning — and a tool request then
encounters the missing credential at call time: the payment attempt fails
per call with `Private Key missing in .env`, and the dispatcher returns a
per-call error envelope instead of the process having died at startup. -/
theorem missing_credential_not_fatal :
    X402Service.init "" = { privateKey := "", warnedMissingKey := true } ∧
    (executePayment envNoKey (1/2) "analyze_wallet_portfolio").1.success = false ∧
    (executePayment envNoKey (1/2) "analyze_wallet_portfolio").1.error =
      some "Private Key missing in .env" ∧
    (callTool envNoKey "analyze_wallet_portfolio" [("address", "0xUSER")]).1.isError = true := by
  exact ⟨rfl, by decide, by decide, by decide⟩

/-- C6 (amended): a missing signing credential is a per-call error, not a
startup-fatal one: the `X402Service` constructor always completes (it
records a warning when the key is empty), and under an empty key every
payment attempt returns a failed result carrying
`Private Key missing in .env`. -/
theorem missing_credential_per_call (env : Env) (q : ℚ) (tid : String)
    (hk : env.privateKey = "") :
    (X402Service.init env.privateKey).warnedMissingKey = true ∧
    (X402Service.init env.privateKey).privateKey = env.privateKey ∧
    (executePayment env q tid).1.success = false ∧
    (executePayment env q tid).1.error = some "Private Key missing in .env" := by
  have hsig : getSigner env.privateKey = Except.error "Private Key missing in .env" := by
    unfold getSigner
    rw [if_pos hk]
  have hrun : executePaymentEx env q tid =
      (Except.error "Private Key missing in .env",
        [Event.attemptCreated (paymentId tid env.nowMs)]) := by
    unfold executePaymentEx
    rw [hsig]
  refine ⟨by simp [X402Service.init, hk], rfl, ?_, ?_⟩
  · unfold executePayment
    rw [hrun]
  · unfold executePayment
    rw [hrun]

/-- C6 witness for the amended statement. -/
theorem missing_credential_per_call_witness :
    (X402Service.init envNoKey.privateKey).warnedMissingKey = true ∧
    (executePayment envNoKey (1/2) "analyze_wallet_portfolio").1.error =
      some "Private Key missing in .env" :=
  ⟨(missing_credential_per_call envNoKey (1/2) "analyze_wallet_portfolio" rfl).1,
    (missing_credential_per_call envNoKey (1/2) "analyze_wallet_portfolio" rfl).2.2.2⟩

/-- C7 (code-bug evidence): invoking the paid tool
`analyze_wallet_portfolio` with empty arguments — missing the
schema-required field `address` — performs the balance query and the full
x402 payment (settlement included) and then invokes the handler: the
dispatcher contains no input-schema validation, so no validation error is
produced before the payment steps, contradicting the claimed behaviour. -/
theorem payment_runs_despite_missing_required_field :
    analyzeTool ∈ TOOLS ∧
    "address" ∈ analyzeTool.required ∧
    argGet [] "address" = none ∧
    Event.settleCall ∈ (callTool envOk "analyze_wallet_portfolio" []).2 ∧
    Event.outcome true ∈ (callTool envOk "analyze_wallet_portfolio" []).2 ∧
    (callTool envOk "analyze_wallet_portfolio" []).1.isError = false := by
  exact ⟨by decide, by decide, rfl, by decide, by decide, by decide⟩

/-- C5 counterexample: `check_x402_status` is a free-tier catalog tool,
yet its successful response envelope carries no `tier` field at all — in
particular not `tier = "free"` — refuting the claim as stated. -/
theorem free_tier_envelope_claim_false :
    (findTool "check_x402_status").map ToolDefinition.tier = some Tier.free ∧
    (callTool envOk "check_x402_status" []).1.isError = false ∧
    (callTool envOk "check_x402_status" []).1.tierField = none := by
  exact ⟨rfl, by decide, by decide⟩

/-- C5 (amended): for every free-tier catalog tool, `callTool` never
creates a payment attempt and never runs any payment step — the trace
contains only balance queries and the handler-invocation event, hence no
attempt-scoped audit entries are produced — and the response envelope
carries no payment-receipt fields; for every free-tier tool other than
the status tool `check_x402_status`, a successful invocation returns the
`success = true`, `tier = "free"` envelope with no receipt fields.  (The
original claim fails only for `check_x402_status`, whose envelope has no
`tier` field; see the counterexample.) -/
theorem free_tools_no_payment_attempt (env : Env) (args : Args) (tool : ToolDefinition)
    (hmem : tool ∈ TOOLS) (ht : tool.tier = Tier.free) :
    ((∀ e ∈ (callTool env tool.id args).2,
        e = Event.balanceQuery env.signerAddress ∨
        e = Event.nativeBalanceQuery env.signerAddress ∨
        e = Event.executed tool.id) ∧
      (callTool env tool.id args).1.hasReceipt = false) ∧
    (tool.id ≠ "check_x402_status" → ∀ d, env.handlerData tool.id = Except.ok d →
      (callTool env tool.id args).1 =
        { body := ResponseBody.toolResult
            { success := true, tool := tool.id, tier := some "free",
              paymentMethod := none, paidAmount := none, data := d },
          isError := false }) := by
  simp only [TOOLS, List.mem_cons, List.not_mem_nil, or_false] at hmem
  rcases hmem with h | h | h | h | h | h | h | h | h | h | h
  case _ =>
    subst h
    dsimp only
    cases hd0 : env.handlerData "get_cronos_balance" with
    | ok d0 =>
      refine ⟨⟨?_, ?_⟩, ?_⟩
      · intro e he
        simp [callTool, executeTool, findTool, TOOLS, List.find?, hd0] at he
        simp [he]
      · simp [callTool, executeTool, findTool, TOOLS, List.find?, hd0, Envelope.hasReceipt,
          mkError]
      · intro _ d hd
        injection hd with hdd
        subst hdd
        simp [callTool, executeTool, findTool, TOOLS, List.find?, hd0]
    | error m =>
      refine ⟨⟨?_, ?_⟩, ?_⟩
      · intro e he
        simp [callTool, executeTool, findTool, TOOLS, List.find?, hd0] at he
        simp [he]
      · simp [callTool, executeTool, findTool, TOOLS, List.find?, hd0, Envelope.hasReceipt,
          mkError]
      · intro _ d hd
        exact absurd hd (by simp)
  case _ =>
    subst h
    dsimp only
    cases hd0 : env.handlerData "get_gas_price" with
    | ok d0 =>
      refine ⟨⟨?_, ?_⟩, ?_⟩
      · intro e he
        simp [callTool, executeTool, findTool, TOOLS, List.find?, hd0] at he
        simp [he]
      · simp [callTool, executeTool, findTool, TOOLS, List.find?, hd0, Envelope.hasReceipt,
          mkError]
      · intro _ d hd
        injection hd with hdd
        subst hdd
        simp [callTool, executeTool, findTool, TOOLS, List.find?, hd0]
    | error m =>
      refine ⟨⟨?_, ?_⟩, ?_⟩
      · intro e he
        simp [callTool, executeTool, findTool, TOOLS, List.find?, hd0] at he
        simp [he]
      · simp [callTool, executeTool, findTool, TOOLS, List.find?, hd0, Envelope.hasReceipt,
          mkError]
      · intro _ d hd
        exact absurd hd (by simp)
  case _ =>
    subst h
    dsimp only
    cases hd0 : env.handlerData "get_token_price" with
    | ok d0 =>
      refine ⟨⟨?_, ?_⟩, ?_⟩
      · intro e he
        simp [callTool, executeTool, findTool, TOOLS, List.find?, hd0] at he
        simp [he]
      · simp [callTool, executeTool, findTool, TOOLS, List.find?, hd0, Envelope.hasReceipt,
          mkError]
      · intro _ d hd
        injection hd with hdd
        subst hdd
        simp [callTool, executeTool, findTool, TOOLS, List.find?, hd0]
    | error m =>
      refine ⟨⟨?_, ?_⟩, ?_⟩
      · intro e he
        simp [callTool, executeTool, findTool, TOOLS, List.find?, hd0] at he
        simp [he]
      · simp [callTool, executeTool, findTool, TOOLS, List.find?, hd0, Envelope.hasReceipt,
          mkError]
      · intro _ d hd
        exact absurd hd (by simp)
  case _ =>
    subst h
    dsimp only
    cases hd0 : env.handlerData "check_transaction_status" with
    | ok d0 =>
      refine ⟨⟨?_, ?_⟩, ?_⟩
      · intro e he
        simp [callTool, executeTool, findTool, TOOLS, List.find?, hd0] at he
        simp [he]
      · simp [callTool, executeTool, findTool, TOOLS, List.find?, hd0, Envelope.hasReceipt,
          mkError]
      · intro _ d hd
        injection hd with hdd
        subst hdd
        simp [callTool, executeTool, findTool, TOOLS, List.find?, hd0]
    | error m =>
      refine ⟨⟨?_, ?_⟩, ?_⟩
      · intro e he
        simp [callTool, executeTool, findTool, TOOLS, List.find?, hd0] at he
        simp [he]
      · simp [callTool, executeTool, findTool, TOOLS, List.find?, hd0, Envelope.hasReceipt,
          mkError]
      · intro _ d hd
        exact absurd hd (by simp)
  case _ =>
    subst h
    dsimp only
    refine ⟨⟨?_, ?_⟩, ?_⟩
    · intro e he
      have htr : (callTool env "check_x402_status" args).2 = (handleX402Status env).2 := by
        simp [callTool, findTool, TOOLS, List.find?]
      rw [htr] at he
      have h2 := handleX402Status_events env e he
      tauto
    · simp [callTool, findTool, TOOLS, List.find?, Envelope.hasReceipt, handleX402Status]
    · intro hne
      exact absurd rfl hne
  case _ =>
    subst h
    exact absurd ht (by decide)
  case _ =>
    subst h
    exact absurd ht (by decide)
  case _ =>
    subst h
    exact absurd ht (by decide)
  case _ =>
    subst h
    exact absurd ht (by decide)
  case _ =>
    subst h
    exact absurd ht (by decide)
  case _ =>
    subst h
    exact absurd ht (by decide)

/-- C5 witness for the amended statement: the spec scenario —
`get_gas_price` succeeds with a `tier = "free"`, receipt-free envelope. -/
theorem free_tools_no_payment_attempt_witness :
    (callTool envOk "get_gas_price" []).1 =
      { body := ResponseBody.toolResult
          { success := true, tool := "get_gas_price", tier := some "free",
            paymentMethod := none, paidAmount := none, data := "DATA" },
        isError := false } :=
  (free_tools_no_payment_attempt envOk [] gasTool (by decide) rfl).2 (by decide) "DATA" rfl

end ClaimTheorems

end MCPay
